import Mathlib

/-!
Verification of the schema layer of the movies-and-series catalogue backend
(src/schema/audiovisual.py). The pydantic models are shallowly embedded:
raw JSON values become the inductive type `Raw`, a raw mapping is an
association list of string keys, each pydantic model becomes a structure
with an explicit decode function modelling pydantic v2 validation
(alias resolution, before-validators, lax type coercion) and an explicit
encode function modelling serialization with the snake_case aliases.
Floating point values are modelled as rationals; the Python float()
conversion needed by the schema only ever sees plain decimal literals,
which is what `parseFloat` models.
-/

/-- Raw JSON-like values as handed to pydantic model validation. -/
inductive Raw where
  | str : String → Raw
  | int : Int → Raw
  | num : Rat → Raw
  | bool : Bool → Raw
  | null : Raw
  | arr : List Raw → Raw
  | obj : List (String × Raw) → Raw

/-- A raw key/value mapping (one JSON object). -/
abbrev RawObj := List (String × Raw)

/-- Uppercases the first character of a component, as pydantic capitalizes
each snake component when generating aliases. -/
def capitalizeChars : List Char → List Char
  | [] => []
  | c :: cs => c.toUpper :: cs

/-- Splits a character list at every occurrence of the separator. -/
def splitOnChar (sep : Char) : List Char → List (List Char)
  | [] => [[]]
  | c :: cs =>
    match splitOnChar sep cs with
    | [] => [[c]]
    | g :: gs => if c = sep then [] :: g :: gs else (c :: g) :: gs

/-- Models pydantic.alias_generators.to_pascal on snake_case names. -/
def toPascal (s : String) : String :=
  String.mk (((splitOnChar '_' s.data).map capitalizeChars).flatten)

/-- Models pydantic.alias_generators.to_camel on snake_case names. -/
def toCamel (s : String) : String :=
  match (toPascal s).data with
  | [] => ""
  | c :: cs => String.mk (c.toLower :: cs)

/-- First value stored under the given key, if any. -/
def lookupRaw : RawObj → String → Option Raw
  | [], _ => none
  | (k, v) :: rest, q => if k = q then some v else lookupRaw rest q

/-- Tries a list of acceptable key spellings in order; first match wins
(models pydantic AliasChoices together with populate_by_name). -/
def lookupKeys (o : RawObj) : List String → Option Raw
  | [] => none
  | q :: qs =>
    match lookupRaw o q with
    | some v => some v
    | none => lookupKeys o qs

/-- Does the pattern occur at the head of the character list? -/
def startsWithChars : List Char → List Char → Bool
  | [], _ => true
  | _ :: _, [] => false
  | p :: ps, c :: cs => p = c && startsWithChars ps cs

/-- Does the pattern occur anywhere in the character list? -/
def containsSubChars (pat : List Char) : List Char → Bool
  | [] => startsWithChars pat []
  | c :: cs => startsWithChars pat (c :: cs) || containsSubChars pat cs

/-- Models re.search of the literal pattern N/A in a string
(audiovisual.py line 96): a substring match, not an exact-equality test. -/
def containsNA (s : String) : Bool := containsSubChars ['N', '/', 'A'] s.data

/-- Models re.search of a comma (audiovisual.py line 89). -/
def containsComma (s : String) : Bool := s.data.any (fun c => c = ',')

/-- Models re.sub replacing every comma by a dot (audiovisual.py line 90). -/
def commaToDot (s : String) : String :=
  String.mk (s.data.map (fun c => if c = ',' then '.' else c))

def allDigits (cs : List Char) : Bool := cs.all (fun c => c.isDigit)

def natOfDigits (cs : List Char) : Nat :=
  cs.foldl (fun a c => 10 * a + (c.toNat - 48)) 0

/-- Unsigned decimal literal to a rational: digits before the dot are the
integer part, digits after it the fractional part, so the value is
(intPart * 10 ^ len + fracPart) / 10 ^ len in lowest terms. -/
def parseUFloat (cs : List Char) : Option Rat :=
  match splitOnChar '.' cs with
  | [i] => if !i.isEmpty && allDigits i then some (mkRat (natOfDigits i) 1) else none
  | [i, f] =>
    if (!i.isEmpty || !f.isEmpty) && allDigits i && allDigits f then
      some (mkRat (natOfDigits i * 10 ^ f.length + natOfDigits f) (10 ^ f.length))
    else none
  | _ => none

/-- Models the Python float() conversion (and pydantic lax string-to-float
coercion) on plain decimal literals, which are the only shapes the schema
feeds it. -/
def parseFloat (s : String) : Option Rat :=
  match s.data with
  | '-' :: rest => (parseUFloat rest).map Rat.neg
  | '+' :: rest => parseUFloat rest
  | cs => parseUFloat cs

/-- Models pydantic lax string-to-integer coercion on decimal literals. -/
def parseIntStr (s : String) : Option Int :=
  match s.data with
  | '-' :: rest => if !rest.isEmpty && allDigits rest then some (-(natOfDigits rest : Int)) else none
  | '+' :: rest => if !rest.isEmpty && allDigits rest then some ((natOfDigits rest : Int)) else none
  | cs => if !cs.isEmpty && allDigits cs then some ((natOfDigits cs : Int)) else none

/-- Models the before-validator Audiovisual._empty_field (audiovisual.py
lines 94-99): any string value in which N/A occurs becomes null; every
other value passes through unchanged. Applied to every field. -/
def empty_field (v : Raw) : Raw :=
  match v with
  | Raw.str s => if containsNA s then Raw.null else Raw.str s
  | w => w

/-- Models the before-validator Audiovisual._change_commma_to_dot
(audiovisual.py lines 86-92): a non-empty string containing a comma has
every comma replaced by a dot and is converted with float(), which raises
(decode failure) when the result is not a decimal literal; any other value
passes through unchanged. -/
def change_commma_to_dot (v : Raw) : Except String Raw :=
  match v with
  | Raw.str s =>
    if !s.data.isEmpty && containsComma s then
      match parseFloat (commaToDot s) with
      | some q => Except.ok (Raw.num q)
      | none => Except.error "could not convert string to float"
    else Except.ok (Raw.str s)
  | w => Except.ok w

/-- Pydantic lax coercion into an optional string field. -/
def coerceOptStr : Raw → Except String (Option String)
  | Raw.null => Except.ok none
  | Raw.str s => Except.ok (some s)
  | _ => Except.error "value is not a valid string"

/-- The value of the year field, declared str | int | None. -/
inductive StrOrInt where
  | str : String → StrOrInt
  | int : Int → StrOrInt
deriving DecidableEq

/-- Pydantic smart-union coercion into an optional str | int field. -/
def coerceStrOrInt : Raw → Except String (Option StrOrInt)
  | Raw.null => Except.ok none
  | Raw.str s => Except.ok (some (StrOrInt.str s))
  | Raw.int n => Except.ok (some (StrOrInt.int n))
  | _ => Except.error "value is not a valid string or integer"

/-- Pydantic lax coercion into an optional integer field. -/
def coerceOptInt : Raw → Except String (Option Int)
  | Raw.null => Except.ok none
  | Raw.int n => Except.ok (some n)
  | Raw.num q => if q.den = 1 then Except.ok (some q.num) else Except.error "value is not a valid integer"
  | Raw.str s =>
    match parseIntStr s with
    | some n => Except.ok (some n)
    | none => Except.error "value is not a valid integer"
  | _ => Except.error "value is not a valid integer"

/-- Pydantic lax coercion into an optional float field. -/
def coerceOptFloat : Raw → Except String (Option Rat)
  | Raw.null => Except.ok none
  | Raw.num q => Except.ok (some q)
  | Raw.int n => Except.ok (some (mkRat n 1))
  | Raw.str s =>
    match parseFloat s with
    | some q => Except.ok (some q)
    | none => Except.error "value is not a valid number"
  | _ => Except.error "value is not a valid number"

def lowerStr (s : String) : String := String.mk (s.data.map Char.toLower)

/-- Pydantic lax coercion into the mandatory boolean response field. -/
def coerceBool : Raw → Except String Bool
  | Raw.bool b => Except.ok b
  | Raw.str s =>
    if lowerStr s ∈ ["true", "t", "yes", "y", "on", "1"] then Except.ok true
    else if lowerStr s ∈ ["false", "f", "no", "n", "off", "0"] then Except.ok false
    else Except.error "value is not a valid boolean"
  | Raw.int n =>
    if n = 1 then Except.ok true
    else if n = 0 then Except.ok false
    else Except.error "value is not a valid boolean"
  | Raw.num q =>
    if q = 1 then Except.ok true
    else if q = 0 then Except.ok false
    else Except.error "value is not a valid boolean"
  | _ => Except.error "value is not a valid boolean"

/-- Pydantic lax coercion into a mandatory string field. -/
def coerceStr : Raw → Except String String
  | Raw.str s => Except.ok s
  | _ => Except.error "value is not a valid string"

/-- The nested rating entry model OMDbRating (audiovisual.py lines
102-111): two mandatory strings. -/
structure OMDbRating where
  source : String
  value : String
deriving DecidableEq

/-- Decodes one OMDbRating. Its model_config generates validation aliases
with to_pascal only, with no populate_by_name and no validators, so each
field is looked up under exactly its PascalCase spelling. -/
def decodeOMDbRating (o : RawObj) : Except String OMDbRating :=
  match lookupKeys o [toPascal "source"] with
  | none => Except.error "source: field required"
  | some sv =>
    match coerceStr sv with
    | Except.error e => Except.error e
    | Except.ok s =>
      match lookupKeys o [toPascal "value"] with
      | none => Except.error "value: field required"
      | some vv =>
        match coerceStr vv with
        | Except.error e => Except.error e
        | Except.ok w => Except.ok { source := s, value := w }

/-- Elementwise validation of the ratings list; the first failing entry
aborts the decode. -/
def decodeRatingList : List Raw → Except String (List OMDbRating)
  | [] => Except.ok []
  | Raw.obj o :: rest =>
    match decodeOMDbRating o with
    | Except.error e => Except.error e
    | Except.ok r =>
      match decodeRatingList rest with
      | Except.error e => Except.error e
      | Except.ok rs => Except.ok (r :: rs)
  | _ :: _ => Except.error "value is not a valid rating entry"

/-- Coercion into the optional list of OMDbRating entries. -/
def coerceOptRatings : Raw → Except String (Option (List OMDbRating))
  | Raw.null => Except.ok none
  | Raw.arr l =>
    match decodeRatingList l with
    | Except.error e => Except.error e
    | Except.ok rs => Except.ok (some rs)
  | _ => Except.error "value is not a valid list"

/-- The imdb_rating pipeline after the sentinel pass: the field-specific
comma validator runs, then lax float coercion. -/
def imdbRatingCoerce (v : Raw) : Except String (Option Rat) :=
  match change_commma_to_dot v with
  | Except.error e => Except.error e
  | Except.ok w => coerceOptFloat w

/-- The decoded Audiovisual model (audiovisual.py lines 44-99). Fields
declared without a default in the source carry no default here either:
pydantic v2 treats an Optional annotation without a default as required. -/
structure Audiovisual where
  title : Option String
  year : Option StrOrInt
  rated : Option String
  released : Option String
  runtime : Option String
  genre : Option String
  director : Option String
  writer : Option String
  actors : Option String
  plot : Option String
  language : Option String
  country : Option String
  awards : Option String
  poster : Option String
  ratings : Option (List OMDbRating) := none
  metascore : Option Int
  imdb_rating : Option Rat
  imdb_votes : Option String
  imdb_id : Option String
  type : Option String
  dvd : Option String := none
  total_seasons : Option String := none
  box_office : Option String := none
  production : Option String := none
  website : Option String := none
  response : Bool
deriving DecidableEq

/-- Decoding of one Audiovisual field: key resolution over the acceptable
spellings, then (if a key matched) the global sentinel before-validator,
then the field coercion; a missing key uses the declared default or fails
as a required field. -/
def decodeAVField {α : Type} (name : String) (keys : List String)
    (coerce : Raw → Except String α) (dflt : Option α) (o : RawObj) : Except String α :=
  match lookupKeys o keys with
  | none =>
    match dflt with
    | some d => Except.ok d
    | none => Except.error (name ++ ": field required")
  | some v => coerce (empty_field v)

/-- Names of the declared fields of Audiovisual, in declaration order. -/
inductive AVField where
  | title | year | rated | released | runtime | genre | director | writer
  | actors | plot | language | country | awards | poster | ratings
  | metascore | imdbRating | imdbVotes | imdbId | type | dvd
  | totalSeasons | boxOffice | production | website | response
deriving DecidableEq

def avFieldName : AVField → String
  | AVField.title => "title"
  | AVField.year => "year"
  | AVField.rated => "rated"
  | AVField.released => "released"
  | AVField.runtime => "runtime"
  | AVField.genre => "genre"
  | AVField.director => "director"
  | AVField.writer => "writer"
  | AVField.actors => "actors"
  | AVField.plot => "plot"
  | AVField.language => "language"
  | AVField.country => "country"
  | AVField.awards => "awards"
  | AVField.poster => "poster"
  | AVField.ratings => "ratings"
  | AVField.metascore => "metascore"
  | AVField.imdbRating => "imdb_rating"
  | AVField.imdbVotes => "imdb_votes"
  | AVField.imdbId => "imdb_id"
  | AVField.type => "type"
  | AVField.dvd => "dvd"
  | AVField.totalSeasons => "total_seasons"
  | AVField.boxOffice => "box_office"
  | AVField.production => "production"
  | AVField.website => "website"
  | AVField.response => "response"

/-- Acceptable input key spellings per field, in lookup order. The alias
generator supplies AliasChoices(to_camel, to_pascal); an explicit Field
validation_alias (imdb_id, dvd) overrides the generator; populate_by_name
additionally admits the declared field name itself. -/
def avKeys : AVField → List String
  | AVField.imdbId => ["imdbID", "imdb_id"]
  | AVField.dvd => ["DVD", "dvd"]
  | f => [toCamel (avFieldName f), toPascal (avFieldName f), avFieldName f]

/-- Value of a decoded Audiovisual field, used to state per-field
properties uniformly across the heterogeneous field types. -/
inductive FieldVal where
  | str : String → FieldVal
  | int : Int → FieldVal
  | num : Rat → FieldVal
  | bool : Bool → FieldVal
  | ratingList : List OMDbRating → FieldVal
deriving DecidableEq

def fieldValOfStrOrInt : StrOrInt → FieldVal
  | StrOrInt.str s => FieldVal.str s
  | StrOrInt.int n => FieldVal.int n

/-- The per-field coercion of Audiovisual, with results injected into
FieldVal. All fields except the five special ones are optional strings. -/
def avCoerce : AVField → Raw → Except String (Option FieldVal)
  | AVField.year => fun v => (coerceStrOrInt v).map (Option.map fieldValOfStrOrInt)
  | AVField.ratings => fun v => (coerceOptRatings v).map (Option.map FieldVal.ratingList)
  | AVField.metascore => fun v => (coerceOptInt v).map (Option.map FieldVal.int)
  | AVField.imdbRating => fun v => (imdbRatingCoerce v).map (Option.map FieldVal.num)
  | AVField.response => fun v => (coerceBool v).map (fun b => some (FieldVal.bool b))
  | _ => fun v => (coerceOptStr v).map (Option.map FieldVal.str)

/-- Declared defaults: exactly the six fields given a default in the
source may be absent; every other field is required. -/
def avDefault : AVField → Option (Option FieldVal)
  | AVField.ratings => some none
  | AVField.dvd => some none
  | AVField.totalSeasons => some none
  | AVField.boxOffice => some none
  | AVField.production => some none
  | AVField.website => some none
  | _ => none

/-- Decodes a single declared field of Audiovisual from a raw mapping. -/
def decodeAVFieldVal (f : AVField) (o : RawObj) : Except String (Option FieldVal) :=
  decodeAVField (avFieldName f) (avKeys f) (avCoerce f) (avDefault f) o

/-- Decodes a whole Audiovisual from a raw mapping, field by field in
declaration order. -/
def decodeAudiovisual (o : RawObj) : Except String Audiovisual := do
  let title ← decodeAVField (avFieldName AVField.title) (avKeys AVField.title) coerceOptStr none o
  let year ← decodeAVField (avFieldName AVField.year) (avKeys AVField.year) coerceStrOrInt none o
  let rated ← decodeAVField (avFieldName AVField.rated) (avKeys AVField.rated) coerceOptStr none o
  let released ← decodeAVField (avFieldName AVField.released) (avKeys AVField.released) coerceOptStr none o
  let runtime ← decodeAVField (avFieldName AVField.runtime) (avKeys AVField.runtime) coerceOptStr none o
  let genre ← decodeAVField (avFieldName AVField.genre) (avKeys AVField.genre) coerceOptStr none o
  let director ← decodeAVField (avFieldName AVField.director) (avKeys AVField.director) coerceOptStr none o
  let writer ← decodeAVField (avFieldName AVField.writer) (avKeys AVField.writer) coerceOptStr none o
  let actors ← decodeAVField (avFieldName AVField.actors) (avKeys AVField.actors) coerceOptStr none o
  let plot ← decodeAVField (avFieldName AVField.plot) (avKeys AVField.plot) coerceOptStr none o
  let language ← decodeAVField (avFieldName AVField.language) (avKeys AVField.language) coerceOptStr none o
  let country ← decodeAVField (avFieldName AVField.country) (avKeys AVField.country) coerceOptStr none o
  let awards ← decodeAVField (avFieldName AVField.awards) (avKeys AVField.awards) coerceOptStr none o
  let poster ← decodeAVField (avFieldName AVField.poster) (avKeys AVField.poster) coerceOptStr none o
  let ratings ← decodeAVField (avFieldName AVField.ratings) (avKeys AVField.ratings) coerceOptRatings (some none) o
  let metascore ← decodeAVField (avFieldName AVField.metascore) (avKeys AVField.metascore) coerceOptInt none o
  let imdb_rating ← decodeAVField (avFieldName AVField.imdbRating) (avKeys AVField.imdbRating) imdbRatingCoerce none o
  let imdb_votes ← decodeAVField (avFieldName AVField.imdbVotes) (avKeys AVField.imdbVotes) coerceOptStr none o
  let imdb_id ← decodeAVField (avFieldName AVField.imdbId) (avKeys AVField.imdbId) coerceOptStr none o
  let type ← decodeAVField (avFieldName AVField.type) (avKeys AVField.type) coerceOptStr none o
  let dvd ← decodeAVField (avFieldName AVField.dvd) (avKeys AVField.dvd) coerceOptStr (some none) o
  let total_seasons ← decodeAVField (avFieldName AVField.totalSeasons) (avKeys AVField.totalSeasons) coerceOptStr (some none) o
  let box_office ← decodeAVField (avFieldName AVField.boxOffice) (avKeys AVField.boxOffice) coerceOptStr (some none) o
  let production ← decodeAVField (avFieldName AVField.production) (avKeys AVField.production) coerceOptStr (some none) o
  let website ← decodeAVField (avFieldName AVField.website) (avKeys AVField.website) coerceOptStr (some none) o
  let response ← decodeAVField (avFieldName AVField.response) (avKeys AVField.response) coerceBool none o
  Except.ok { title, year, rated, released, runtime, genre, director, writer,
              actors, plot, language, country, awards, poster, ratings,
              metascore, imdb_rating, imdb_votes, imdb_id, type, dvd,
              total_seasons, box_office, production, website, response }

/-- Serialization of a rating entry: the serialization_alias generator is
to_snake, so the two fields are emitted under their snake names. -/
def encodeOMDbRating (r : OMDbRating) : Raw :=
  Raw.obj [("source", Raw.str r.source), ("value", Raw.str r.value)]

def encOptStr : Option String → Raw
  | some s => Raw.str s
  | none => Raw.null

def encStrOrInt : Option StrOrInt → Raw
  | some (StrOrInt.str s) => Raw.str s
  | some (StrOrInt.int n) => Raw.int n
  | none => Raw.null

/-- Serialization of a decoded Audiovisual: every field is emitted, in
declaration order, under its to_snake serialization alias (which equals
the declared snake_case field name), independent of the input spelling. -/
def encodeAudiovisual (a : Audiovisual) : RawObj :=
  [("title", encOptStr a.title),
   ("year", encStrOrInt a.year),
   ("rated", encOptStr a.rated),
   ("released", encOptStr a.released),
   ("runtime", encOptStr a.runtime),
   ("genre", encOptStr a.genre),
   ("director", encOptStr a.director),
   ("writer", encOptStr a.writer),
   ("actors", encOptStr a.actors),
   ("plot", encOptStr a.plot),
   ("language", encOptStr a.language),
   ("country", encOptStr a.country),
   ("awards", encOptStr a.awards),
   ("poster", encOptStr a.poster),
   ("ratings", match a.ratings with
               | some rs => Raw.arr (rs.map encodeOMDbRating)
               | none => Raw.null),
   ("metascore", match a.metascore with
                 | some n => Raw.int n
                 | none => Raw.null),
   ("imdb_rating", match a.imdb_rating with
                   | some q => Raw.num q
                   | none => Raw.null),
   ("imdb_votes", encOptStr a.imdb_votes),
   ("imdb_id", encOptStr a.imdb_id),
   ("type", encOptStr a.type),
   ("dvd", encOptStr a.dvd),
   ("total_seasons", encOptStr a.total_seasons),
   ("box_office", encOptStr a.box_office),
   ("production", encOptStr a.production),
   ("website", encOptStr a.website),
   ("response", Raw.bool a.response)]

/-- The snake_case output key of every field, in declaration order. -/
def snakeFieldNames : List String :=
  ["title", "year", "rated", "released", "runtime", "genre", "director",
   "writer", "actors", "plot", "language", "country", "awards", "poster",
   "ratings", "metascore", "imdb_rating", "imdb_votes", "imdb_id", "type",
   "dvd", "total_seasons", "box_office", "production", "website", "response"]

/-- Decode-then-encode of one raw provider object. -/
def decThenEnc (o : RawObj) : Except String RawObj :=
  (decodeAudiovisual o).map encodeAudiovisual

/-- Models the field validator AudiovisualPost._replace_whitespaces_for_request
(audiovisual.py lines 38-41): a truthy (non-empty) title has every single
whitespace character replaced by one plus sign via re.sub; None and the
empty string pass through unchanged. The character class models the ASCII
part of the regex whitespace class. -/
def replace_whitespaces_for_request (v : Option String) : Option String :=
  match v with
  | some s =>
    if s.data.isEmpty then some s
    else some (String.mk (s.data.map (fun c =>
      if c = ' ' || c = '\t' || c = '\n' || c = '\r' || c = '\x0b' || c = '\x0c'
      then '+' else c)))
  | none => none

/-- The outbound query model AudiovisualPost (audiovisual.py lines 19-41):
three optional fields, all defaulting to None. -/
structure AudiovisualPost where
  imdb_id : Option StrOrInt := none
  title : Option String := none
  year : Option Int := none
deriving DecidableEq

/-- Construction of an AudiovisualPost: the title validator runs once, at
construction. -/
def mkAudiovisualPost (imdb_id : Option StrOrInt) (title : Option String)
    (year : Option Int) : AudiovisualPost :=
  { imdb_id := imdb_id, title := replace_whitespaces_for_request title, year := year }

/-- Modelled from the spec: the aggregate Rating object imported from the
model module, which is not among the sources; the spec describes it as an
externally computed aggregate exposing a numeric rating attribute. -/
structure Rating where
  rating : Rat
deriving DecidableEq

/-- The dynamically typed rating input of AudiovisualView, as the spec
suggests: an aggregate Rating, a plain number, or absent. -/
inductive RatingInput where
  | agg : Rating → RatingInput
  | num : Rat → RatingInput
  | absent : RatingInput
deriving DecidableEq

/-- Models the before-validator AudiovisualView._return_rating
(audiovisual.py lines 150-154): a Rating aggregate has its rating
attribute extracted; anything else passes through unchanged, and the
float | None coercion then admits a plain number or absence. -/
def return_rating : RatingInput → Option Rat
  | RatingInput.agg r => some r.rating
  | RatingInput.num q => some q
  | RatingInput.absent => none

/-- The raw object of the end-to-end scenario, exactly as the spec gives it. -/
def fargoRaw : RawObj :=
  [("Title", Raw.str "Fargo"), ("imdbRating", Raw.str "8,9"),
   ("imdbID", Raw.str "tt0944947"), ("Response", Raw.str "true")]

/-- The sixteen further default-less fields, supplied with the provider
sentinel so that they decode to absent. -/
def naFill : RawObj :=
  [("Year", Raw.str "N/A"), ("Rated", Raw.str "N/A"), ("Released", Raw.str "N/A"),
   ("Runtime", Raw.str "N/A"), ("Genre", Raw.str "N/A"), ("Director", Raw.str "N/A"),
   ("Writer", Raw.str "N/A"), ("Actors", Raw.str "N/A"), ("Plot", Raw.str "N/A"),
   ("Language", Raw.str "N/A"), ("Country", Raw.str "N/A"), ("Awards", Raw.str "N/A"),
   ("Poster", Raw.str "N/A"), ("Metascore", Raw.str "N/A"), ("imdbVotes", Raw.str "N/A"),
   ("Type", Raw.str "N/A")]

/-- The Fargo object completed with every required field. -/
def fargoFull : RawObj := fargoRaw ++ naFill

/-- The record that decoding fargoFull produces. -/
def fargoRecord : Audiovisual :=
  { title := some "Fargo", year := none, rated := none, released := none,
    runtime := none, genre := none, director := none, writer := none,
    actors := none, plot := none, language := none, country := none,
    awards := none, poster := none, ratings := none, metascore := none,
    imdb_rating := some (mkRat 89 10), imdb_votes := none,
    imdb_id := some "tt0944947", type := none, dvd := none,
    total_seasons := none, box_office := none, production := none,
    website := none, response := true }

/-- fargoFull with the identifier key in its camelCase spelling. -/
def fargoCamelId : RawObj :=
  [("Title", Raw.str "Fargo"), ("imdbRating", Raw.str "8,9"),
   ("imdbId", Raw.str "tt0944947"), ("Response", Raw.str "true")] ++ naFill

/-- fargoFull with the identifier key under the declared field name. -/
def fargoSnakeId : RawObj :=
  [("Title", Raw.str "Fargo"), ("imdbRating", Raw.str "8,9"),
   ("imdb_id", Raw.str "tt0944947"), ("Response", Raw.str "true")] ++ naFill

/-- fargoFull with the title entry removed. -/
def noTitlePayload : RawObj :=
  [("imdbRating", Raw.str "8,9"), ("imdbID", Raw.str "tt0944947"),
   ("Response", Raw.str "true")] ++ naFill

/-- A rating entry under its PascalCase keys. -/
def omdbPascal : RawObj :=
  [("Source", Raw.str "Internet Movie Database"), ("Value", Raw.str "8.9/10")]

/-- The same rating entry under its camelCase keys, which for these two
fields coincide with the plain field names. -/
def omdbCamel : RawObj :=
  [("source", Raw.str "Internet Movie Database"), ("value", Raw.str "8.9/10")]

/-- fargoFull extended with a non-empty ratings list. -/
def ratingsPayload : RawObj :=
  ("Ratings", Raw.arr [Raw.obj omdbPascal]) :: fargoFull

/-- The record that decoding ratingsPayload produces. -/
def ratingsRecord : Audiovisual :=
  { fargoRecord with
    ratings := some [{ source := "Internet Movie Database", value := "8.9/10" }] }

/-! ## Helper lemmas -/

theorem lookupKeys_single {k : String} {v : Raw} {keys : List String} (hk : k ∈ keys) :
    lookupKeys [(k, v)] keys = some v := by
  induction keys with
  | nil => cases hk
  | cons q qs ih =>
    rw [List.mem_cons] at hk
    by_cases h : k = q
    · subst h
      simp [lookupKeys, lookupRaw]
    · have hm : k ∈ qs := by
        cases hk with
        | inl he => exact absurd he h
        | inr hm => exact hm
      simp [lookupKeys, lookupRaw, h, ih hm]

theorem empty_field_na {s : String} (hs : containsNA s = true) :
    empty_field (Raw.str s) = Raw.null := by
  simp [empty_field, hs]

theorem decodeAVField_na {α : Type} (name : String) (keys : List String)
    (coerce : Raw → Except String α) (dflt : Option α) {k : String} (s : String)
    (hk : k ∈ keys) (hs : containsNA s = true) :
    decodeAVField name keys coerce dflt [(k, Raw.str s)] = coerce Raw.null := by
  simp [decodeAVField, lookupKeys_single hk, empty_field_na hs]

/-- Any Audiovisual field other than the mandatory response decodes a raw
string containing the sentinel to an absent value: the sentinel pass nulls
it and every optional coercion admits null. For response, the nulled value
fails the boolean coercion instead. -/
theorem decodeAVFieldVal_na (f : AVField) (hf : f ≠ AVField.response) (s : String)
    (hs : containsNA s = true) (k : String) (hk : k ∈ avKeys f) :
    decodeAVFieldVal f [(k, Raw.str s)] = Except.ok none := by
  have hc : avCoerce f Raw.null = Except.ok none := by
    cases f <;> first | rfl | exact absurd rfl hf
  calc decodeAVFieldVal f [(k, Raw.str s)]
      = avCoerce f Raw.null :=
        decodeAVField_na (avFieldName f) (avKeys f) (avCoerce f) (avDefault f) s hk hs
    _ = Except.ok none := hc

theorem containsComma_ne_nil {s : String} (h : containsComma s = true) :
    s.data.isEmpty = false := by
  cases hd : s.data with
  | nil => rw [containsComma, hd] at h; simp at h
  | cons c cs => rfl

/-- A raw string value that survives the sentinel pass reaches the
imdb_rating coercion unchanged. -/
theorem imdbRating_str_decode (s : String) (hna : containsNA s = false) :
    decodeAVFieldVal AVField.imdbRating [("imdbRating", Raw.str s)] =
      (imdbRatingCoerce (Raw.str s)).map (Option.map FieldVal.num) := by
  have hk : ("imdbRating" : String) ∈ avKeys AVField.imdbRating := by decide
  have h1 : decodeAVFieldVal AVField.imdbRating [("imdbRating", Raw.str s)] =
      avCoerce AVField.imdbRating (empty_field (Raw.str s)) := by
    simp [decodeAVFieldVal, decodeAVField, lookupKeys_single hk]
  rw [h1]
  simp [empty_field, hna, avCoerce]

theorem comma_path (s : String) (q : Rat)
    (hna : containsNA s = false) (hc : containsComma s = true)
    (hp : parseFloat (commaToDot s) = some q) :
    decodeAVFieldVal AVField.imdbRating [("imdbRating", Raw.str s)] =
      Except.ok (some (FieldVal.num q)) := by
  rw [imdbRating_str_decode s hna]
  simp [imdbRatingCoerce, change_commma_to_dot, containsComma_ne_nil hc, hc, hp,
        coerceOptFloat, Except.map]

theorem nocomma_path (s : String) (q : Rat)
    (hna : containsNA s = false) (hc : containsComma s = false)
    (hp : parseFloat s = some q) :
    decodeAVFieldVal AVField.imdbRating [("imdbRating", Raw.str s)] =
      Except.ok (some (FieldVal.num q)) := by
  rw [imdbRating_str_decode s hna]
  simp [imdbRatingCoerce, change_commma_to_dot, hc, hp, coerceOptFloat, Except.map]

/-! ## Claim theorems -/

/-- C1 counterexample: decoding the four-key Fargo object, exactly as the
claim states it, does not succeed: the next declared field, year, has no
default and is reported as required. -/
theorem fargo_minimal_payload_fails :
    decodeAudiovisual fargoRaw = Except.error "year: field required" := rfl

/-- C1 (amended): once the nineteen further default-less fields are also
supplied (here with the provider sentinel, which decodes to absent), the
Fargo object decodes to a record with title Fargo, numeric rating 8.9,
identifier tt0944947 and success flag true. -/
theorem fargo_completed_payload_decodes :
    decodeAudiovisual fargoFull = Except.ok fargoRecord
  ∧ fargoRecord.title = some "Fargo"
  ∧ fargoRecord.imdb_rating = some (mkRat 89 10)
  ∧ fargoRecord.imdb_id = some "tt0944947"
  ∧ fargoRecord.response = true :=
  ⟨rfl, rfl, rfl, rfl, rfl⟩

/-- C2 counterexample: the title field has no declared default, so a raw
mapping in which none of its key spellings occurs does not decode to an
absent title: the whole decode fails as title is required. -/
theorem missing_title_not_absent :
    decodeAVFieldVal AVField.title [] = Except.error "title: field required"
  ∧ decodeAudiovisual noTitlePayload = Except.error "title: field required" :=
  ⟨rfl, rfl⟩

/-- C2 (amended): exactly the six fields declared with a default (ratings,
dvd, total_seasons, box_office, production, website) decode to absent when
no key spelling is present; every other field, the success flag included,
is then reported as required. -/
theorem defaulted_fields_absent_ok :
    (∀ f : AVField, avDefault f = some none → decodeAVFieldVal f [] = Except.ok none)
  ∧ (∀ f : AVField, avDefault f = none →
      decodeAVFieldVal f [] = Except.error (avFieldName f ++ ": field required"))
  ∧ (avDefault AVField.ratings = some none ∧ avDefault AVField.dvd = some none
     ∧ avDefault AVField.totalSeasons = some none ∧ avDefault AVField.boxOffice = some none
     ∧ avDefault AVField.production = some none ∧ avDefault AVField.website = some none
     ∧ avDefault AVField.title = none) := by
  refine ⟨fun f hd => ?_, fun f hd => ?_, rfl, rfl, rfl, rfl, rfl, rfl, rfl⟩
  · cases f <;> first | rfl | exact Option.noConfusion hd
  · cases f <;> first | rfl | exact Option.noConfusion hd

/-- C2 witness: the ratings field has a default and decodes to absent from
the empty mapping. -/
theorem defaulted_fields_absent_witness :
    decodeAVFieldVal AVField.ratings [] = Except.ok none :=
  defaulted_fields_absent_ok.1 AVField.ratings rfl

/-- C3 counterexample: for the mandatory response field the sentinel is
nulled but decoding then fails on the boolean coercion, so decoding the
exact sentinel does not yield an absent field there. -/
theorem response_na_not_absent :
    decodeAVFieldVal AVField.response [("Response", Raw.str "N/A")] =
      Except.error "value is not a valid boolean"
  ∧ decodeAVFieldVal AVField.response [("Response", Raw.str "N/A")] ≠ Except.ok none :=
  ⟨rfl, fun h => Except.noConfusion h⟩

/-- C3 (amended): for every field except the mandatory response flag,
under any of its acceptable key spellings, a raw value that is exactly the
sentinel string decodes to absent, never to zero or the empty string. -/
theorem na_exact_absent_except_response :
    ∀ f : AVField, f ≠ AVField.response → ∀ k ∈ avKeys f,
      decodeAVFieldVal f [(k, Raw.str "N/A")] = Except.ok none :=
  fun f hf k hk => decodeAVFieldVal_na f hf "N/A" rfl k hk

/-- C3 witness: the title field decodes the exact sentinel to absent. -/
theorem na_exact_absent_witness :
    decodeAVFieldVal AVField.title [("Title", Raw.str "N/A")] = Except.ok none :=
  na_exact_absent_except_response AVField.title (by decide) "Title" (by decide)

/-- C4 counterexample: the explicit validation alias of the identifier
field overrides the generated alias choices, so the camelCase spelling is
not accepted: the payload using it fails to decode, while the all-caps
spelling decodes fine, hence the two spellings are not interchangeable. -/
theorem camel_imdb_id_rejected :
    decodeAudiovisual fargoCamelId = Except.error "imdb_id: field required"
  ∧ decodeAudiovisual fargoFull = Except.ok fargoRecord :=
  ⟨rfl, rfl⟩

/-- C4 (amended): the payload with the all-caps identifier key decodes to
the same record as the payload with the key under the declared snake_case
field name, which populate_by_name admits. -/
theorem imdbID_same_as_field_name :
    decodeAudiovisual fargoSnakeId = decodeAudiovisual fargoFull
  ∧ decodeAudiovisual fargoFull = Except.ok fargoRecord :=
  ⟨rfl, rfl⟩

/-- C5 counterexample: a run of two spaces is rewritten to two plus signs,
not to a single one. -/
theorem whitespace_run_not_collapsed :
    (mkAudiovisualPost none (some "a  b") none).title = some "a++b"
  ∧ (mkAudiovisualPost none (some "a  b") none).title ≠ some "a+b" :=
  ⟨rfl, by decide⟩

/-- C5 (amended): each single whitespace character of a non-empty title is
replaced by one plus sign at construction, so a run of k whitespace
characters becomes k plus signs; an absent title stays absent. -/
theorem whitespace_each_char_to_plus :
    (mkAudiovisualPost none (some "Breaking Bad") none).title = some "Breaking+Bad"
  ∧ (mkAudiovisualPost none (some "a \t b") none).title = some "a+++b"
  ∧ (mkAudiovisualPost none none none).title = none :=
  ⟨rfl, rfl, rfl⟩

/-- C6 counterexample: the rating entry model generates validation aliases
with to_pascal only, so a field supplied under its camelCase spelling
(which equals the plain field name) is not found and decoding fails. -/
theorem omdb_rating_camel_rejected :
    decodeOMDbRating omdbCamel = Except.error "source: field required" := rfl

/-- C6 (amended): a rating entry decodes exactly when each field is
supplied under its PascalCase spelling; a camelCase key for either field
makes decoding fail. -/
theorem omdb_rating_pascal_only :
    decodeOMDbRating omdbPascal =
      Except.ok { source := "Internet Movie Database", value := "8.9/10" }
  ∧ decodeOMDbRating [("Source", Raw.str "Internet Movie Database"),
                      ("value", Raw.str "8.9/10")] =
      Except.error "value: field required" :=
  ⟨rfl, rfl⟩

/-- C7: for the numeric rating field, a sentinel-free raw string with a
comma is decoded by replacing every comma with a dot and parsing as a
float; one without a comma is parsed directly; the examples 7,1 and 7.1
both decode to 7.1 and the sentinel decodes to absent. -/
theorem imdb_rating_locale :
    (∀ s q, containsNA s = false → containsComma s = true →
      parseFloat (commaToDot s) = some q →
      decodeAVFieldVal AVField.imdbRating [("imdbRating", Raw.str s)] =
        Except.ok (some (FieldVal.num q)))
  ∧ (∀ s q, containsNA s = false → containsComma s = false →
      parseFloat s = some q →
      decodeAVFieldVal AVField.imdbRating [("imdbRating", Raw.str s)] =
        Except.ok (some (FieldVal.num q)))
  ∧ decodeAVFieldVal AVField.imdbRating [("imdbRating", Raw.str "7,1")] =
      Except.ok (some (FieldVal.num (mkRat 71 10)))
  ∧ decodeAVFieldVal AVField.imdbRating [("imdbRating", Raw.str "7.1")] =
      Except.ok (some (FieldVal.num (mkRat 71 10)))
  ∧ decodeAVFieldVal AVField.imdbRating [("imdbRating", Raw.str "N/A")] =
      Except.ok none :=
  ⟨comma_path, nocomma_path, rfl, rfl, rfl⟩

/-- C7 witness: the comma rule applied to the Fargo rating 8,9. -/
theorem imdb_rating_locale_witness :
    decodeAVFieldVal AVField.imdbRating [("imdbRating", Raw.str "8,9")] =
      Except.ok (some (FieldVal.num (mkRat 89 10))) :=
  imdb_rating_locale.1 "8,9" (mkRat 89 10) rfl rfl rfl

/-- C8: the view rating validator extracts the rating attribute from an
aggregate Rating input (8.3 projects to 8.3), passes a plain number
through unchanged (5 stays 5) and leaves an absent rating absent. -/
theorem view_rating_extraction :
    (∀ r : Rating, return_rating (RatingInput.agg r) = some r.rating)
  ∧ return_rating (RatingInput.agg { rating := mkRat 83 10 }) = some (mkRat 83 10)
  ∧ return_rating (RatingInput.num 5) = some 5
  ∧ return_rating RatingInput.absent = none :=
  ⟨fun _ => rfl, rfl, rfl, rfl⟩

/-- C8 witness: extraction from an aggregate holding the value 7. -/
theorem view_rating_extraction_witness :
    return_rating (RatingInput.agg { rating := 7 }) = some 7 :=
  view_rating_extraction.1 { rating := 7 }

/-- C9 counterexample: re-running decode-then-encode on the encoded form
of a decoded record with a non-empty ratings list is not stable: the
nested rating entries are emitted with snake_case keys, which the rating
entry decoder (PascalCase only) rejects. -/
theorem reencode_ratings_not_stable :
    Except.bind (decThenEnc ratingsPayload) decThenEnc ≠ decThenEnc ratingsPayload := by
  intro h
  have h1 : Except.bind (decThenEnc ratingsPayload) decThenEnc =
      (Except.error "source: field required" : Except String RawObj) := rfl
  have h2 : decThenEnc ratingsPayload = Except.ok (encodeAudiovisual ratingsRecord) := rfl
  rw [h1, h2] at h
  exact Except.noConfusion h

/-- C9 (amended): re-encoding any decoded record emits the snake_case key
list regardless of the input spellings, and decode-then-encode is stable
under repetition on a payload whose decoded ratings field is absent. -/
theorem encode_snake_keys_and_stability :
    (∀ a : Audiovisual, (encodeAudiovisual a).map Prod.fst = snakeFieldNames)
  ∧ Except.bind (decThenEnc fargoFull) decThenEnc = decThenEnc fargoFull
  ∧ decThenEnc fargoFull = Except.ok (encodeAudiovisual fargoRecord) :=
  ⟨fun _ => rfl, rfl, rfl⟩

/-- C9 witness: the encoded Fargo record carries the snake_case keys. -/
theorem encode_snake_keys_witness :
    (encodeAudiovisual fargoRecord).map Prod.fst = snakeFieldNames :=
  encode_snake_keys_and_stability.1 fargoRecord

/-- C10 counterexample: for the mandatory response field a raw string
containing the sentinel as a substring is nulled and decoding then fails,
so it does not decode to an absent field there. -/
theorem response_na_substring_not_absent :
    decodeAVFieldVal AVField.response [("Response", Raw.str "Nominated for N/A")] =
      Except.error "value is not a valid boolean"
  ∧ decodeAVFieldVal AVField.response [("Response", Raw.str "Nominated for N/A")] ≠
      Except.ok none :=
  ⟨rfl, fun h => Except.noConfusion h⟩

/-- C10 (amended): for every field except the mandatory response flag,
under any of its acceptable key spellings, any raw string containing the
sentinel anywhere as a substring decodes to absent. -/
theorem na_substring_absent_except_response :
    ∀ f : AVField, f ≠ AVField.response → ∀ s : String, containsNA s = true →
      ∀ k ∈ avKeys f, decodeAVFieldVal f [(k, Raw.str s)] = Except.ok none :=
  fun f hf s hs k hk => decodeAVFieldVal_na f hf s hs k hk

/-- C10 witness: the awards field decodes a string merely containing the
sentinel to absent. -/
theorem na_substring_absent_witness :
    decodeAVFieldVal AVField.awards [("Awards", Raw.str "Nominated for N/A")] =
      Except.ok none :=
  na_substring_absent_except_response AVField.awards (by decide) "Nominated for N/A"
    (by decide) "Awards" (by decide)
